import Mathlib

/-!
Verification of the prefect repository slice: the layered settings
resolution system (environment variables, `.env` file, profile TOML,
`prefect.toml`, `pyproject.toml`, hardcoded defaults) and the client
response schemas (`FlowRunResponse.__eq__`, `DeploymentResponse.as_related_resource`).

The settings implementation itself (`prefect/settings/`) is not part of the
source excerpt; only its test suite (`tests/test_settings.py`) is.  The
definitions in the `Prefect.Settings` namespace are therefore modelled from
the specification's description of the precedence chain, aliasing, coercion,
masking and `temporary_settings`, with the concrete behaviour pinned down by
the assertions of the test suite.  The definitions in `Prefect.Responses`
are translated directly from `src/prefect/client/schemas/responses.py`.
-/

namespace Prefect.Settings

/-- Modelled from the spec: the configuration sources of the settings
resolver, missing from the excerpt (`prefect/settings/sources.py`).
"a precedence chain across (highest to lowest) environment variables →
`.env` file → profile TOML → `prefect.toml` → `pyproject.toml` →
hardcoded defaults".  Each source is an association list from setting key
to raw string value. -/
inductive Source where
  | env
  | dotenv
  | profile
  | prefectToml
  | pyprojectToml
deriving DecidableEq, Repr

/-- Modelled from the spec: the precedence order of the sources, highest
first. -/
def sourceOrder : List Source :=
  [.env, .dotenv, .profile, .prefectToml, .pyprojectToml]

/-- Modelled from the spec: a snapshot of all five configuration sources. -/
structure Sources where
  env : List (String × String)
  dotenv : List (String × String)
  profile : List (String × String)
  prefectToml : List (String × String)
  pyprojectToml : List (String × String)
deriving Repr

/-- Value a single source supplies for a key, if any. -/
def lookupIn (s : Sources) : Source → String → Option String
  | .env, k => s.env.lookup k
  | .dotenv, k => s.dotenv.lookup k
  | .profile, k => s.profile.lookup k
  | .prefectToml, k => s.prefectToml.lookup k
  | .pyprojectToml, k => s.pyprojectToml.lookup k

/-- Modelled from the spec: resolution of one setting key over an ordered
list of sources, "the ordered list of configuration sources consulted until
a value is found", falling back to the hardcoded default. -/
def resolveFrom (order : List Source) (s : Sources) (d : String → String)
    (k : String) : String :=
  match order with
  | [] => d k
  | t :: rest =>
    match lookupIn s t k with
    | some v => v
    | none => resolveFrom rest s d k

/-- Modelled from the spec: full resolution of a setting key, consulting
env > dotenv > profile > prefect.toml > pyproject.toml > default. -/
def resolveSetting (s : Sources) (d : String → String) (k : String) : String :=
  resolveFrom sourceOrder s d k

/-- Remove a key's entry from a single source, leaving the others as they
were (models deleting the env var, the `.env` line, the profile entry, or
the TOML table entry). -/
def removeKey (s : Sources) (t : Source) (k : String) : Sources :=
  match t with
  | .env => { s with env := s.env.filter (fun p => p.1 ≠ k) }
  | .dotenv => { s with dotenv := s.dotenv.filter (fun p => p.1 ≠ k) }
  | .profile => { s with profile := s.profile.filter (fun p => p.1 ≠ k) }
  | .prefectToml => { s with prefectToml := s.prefectToml.filter (fun p => p.1 ≠ k) }
  | .pyprojectToml => { s with pyprojectToml := s.pyprojectToml.filter (fun p => p.1 ≠ k) }

/-- Decimal digit character for a digit value, as Python renders them. -/
def digitChar (d : Nat) : Char := Char.ofNat (48 + d)

/-- Value of a decimal digit character. -/
def digitVal (c : Char) : Nat := c.toNat - 48

def isDigitChar (c : Char) : Bool := 48 ≤ c.toNat && c.toNat ≤ 57

def isSpaceChar (c : Char) : Bool :=
  c = ' ' || c = '\t' || c = '\n' || c = '\r'

/-- Modelled from the spec: decimal rendering of a natural number, as
Python `str` renders integer settings for export. -/
def natToDec (n : Nat) : String :=
  if n = 0 then "0" else String.mk ((Nat.digits 10 n).reverse.map digitChar)

/-- Modelled from the spec: decimal parsing of a digit string, the core of
Python `int` applied to a stripped token (anything that is not a nonempty
run of decimal digits is rejected). -/
def decToNat? (s : String) : Option Nat :=
  if !s.data.isEmpty && s.data.all isDigitChar then
    some (Nat.ofDigits 10 (s.data.map digitVal).reverse)
  else none

/-- Python `str.strip`: surrounding whitespace is removed (`int` applies
this to its argument before parsing). -/
def pyStrip (s : String) : String :=
  String.mk (((s.data.dropWhile isSpaceChar).reverse.dropWhile isSpaceChar).reverse)

/-- Python `str.split(",")`, at the character level. -/
def splitComma (s : String) : List String := (s.data.splitOn ',').map String.mk

/-- Python `",".join(...)`, at the character level. -/
def joinComma (ts : List String) : String :=
  String.mk ([','].intercalate (ts.map String.data))

/-- "retry codes must be valid HTTP status integers": the range check of
the `StatusCode` type, `100 ≤ code ≤ 599`. -/
def isValidHttpStatus (c : Nat) : Bool := 100 ≤ c && c ≤ 599

/-- Modelled from the spec: coercion of one comma-separated token of
`PREFECT_CLIENT_RETRY_EXTRA_CODES` — Python `int(token)` (which strips
surrounding whitespace before parsing) followed by the HTTP-status range
check; a failure of either raises `ValueError`. -/
def parseRetryCode (t : String) : Except String Nat :=
  match decToNat? (pyStrip t) with
  | none => .error ("invalid literal for int() with base 10: " ++ t)
  | some c =>
    if isValidHttpStatus c then .ok c
    else .error ("input should be a valid HTTP status code: " ++ t)

/-- Modelled from the spec: coercion of the comma-separated
`PREFECT_CLIENT_RETRY_EXTRA_CODES` value into a set of status codes; the
empty string yields the empty set. -/
def parseRetryCodes (s : String) : Except String (Finset Nat) :=
  if s = "" then .ok ∅
  else ((splitComma s).mapM parseRetryCode).map List.toFinset

/-- Whether a fallible computation succeeded (no exception raised). -/
def exceptIsOk : Except String α → Bool
  | .ok _ => true
  | .error _ => false

/-- "log level must be one of a fixed set": the allowed log level names. -/
def logLevels : List String := ["DEBUG", "INFO", "WARNING", "ERROR", "CRITICAL"]

/-- Python `str.upper`, at the character level. -/
def pyUpper (s : String) : String := String.mk (s.data.map Char.toUpper)

/-- Modelled from the spec: validation of a log-level setting, missing from
the excerpt (`prefect/types/__init__.py`, `LogLevel`).  The input is
uppercased before the membership check (pinned by
`test_settings_uppercases_log_levels`); a value whose uppercasing is not in
the fixed set raises `pydantic.ValidationError`. -/
def validateLogLevel (s : String) : Except String String :=
  let u := pyUpper s
  if u ∈ logLevels then .ok u
  else .error "Input should be 'DEBUG', 'INFO', 'WARNING', 'ERROR' or 'CRITICAL'"

/-- Modelled from the spec: the state of the profiles file found at
`PREFECT_PROFILES_PATH`, missing from the excerpt
(`prefect/settings/profiles.py`): the path may not exist, the file may not
parse as TOML, or it may parse to a list of profile entries. -/
inductive ProfilesFile where
  | missing
  | malformed
  | parsed (entries : List (String × String))

/-- The user warning emitted for an unparseable profiles file. -/
def failedLoadWarning : String := "Failed to load profiles from path"

/-- Modelled from the spec: loading the profiles file.  "Malformed profile
files produce a user warning and fall back to defaults rather than failing
hard"; a missing file contributes no profile entries and no warning.
Returns the profile source entries together with the emitted user
warnings; it is total, so construction never raises. -/
def loadProfiles : ProfilesFile → List (String × String) × List String
  | .missing => ([], [])
  | .malformed => ([], [failedLoadWarning])
  | .parsed entries => (entries, [])

/-- Modelled from the spec: constructing settings with the profile source
taken from the profiles file, the remaining sources and the defaults as
given.  Yields the resolved settings (as a key-to-value function) and the
warnings emitted while loading. -/
def settingsWithProfilesFile (pf : ProfilesFile) (s : Sources)
    (d : String → String) : (String → String) × List String :=
  (resolveSetting { s with profile := (loadProfiles pf).1 } d,
   (loadProfiles pf).2)

/-- Modelled from the spec: the observable process-wide state around a
settings context: the "current settings" object and the process
environment `os.environ`. -/
structure ProcState (S : Type) where
  current : S
  environ : List (String × String)

/-- How the body of a `with temporary_settings(...)` block exits: a normal
return or a raised exception. -/
inductive Outcome (α : Type) where
  | ok (a : α)
  | raised (msg : String)
deriving DecidableEq, Repr

/-- Modelled from the spec: `temporary_settings` ("simple process-wide
current settings context substitution"), missing from the excerpt
(`prefect/settings/context.py`).  It applies the updates to the current
settings, runs the body with the substituted settings installed as the
process-wide current settings, and restores the previous settings when the
block exits — whether the body returned or raised; `os.environ` is never
modified. -/
def temporarySettings {S α : Type} (upd : S → S)
    (body : ProcState S → Outcome α) (st : ProcState S) :
    Outcome α × ProcState S :=
  let old := st.current
  let subst := { st with current := upd st.current }
  let r := body subst
  (r, { subst with current := old })

/-- Modelled from the spec: the value types of settings fields relevant to
environment-variable serialization. -/
inductive SettingType where
  | tBool
  | tStr
  | tNat
  | tIntSet
deriving DecidableEq, Repr

/-- Modelled from the spec: a settings field value: booleans, strings,
integers (ports and the like), and sets of HTTP status codes
(`retry_extra_codes`). -/
inductive SettingValue where
  | vBool (b : Bool)
  | vStr (s : String)
  | vNat (n : Nat)
  | vIntSet (codes : Finset Nat)
deriving DecidableEq

/-- Modelled from the spec: how `to_environment_variables` renders a field
value into an environment variable string (Python `str` for scalars,
comma-joining for code sets). -/
def renderValue : SettingValue → String
  | .vBool true => "True"
  | .vBool false => "False"
  | .vStr s => s
  | .vNat n => natToDec n
  | .vIntSet codes => joinComma ((codes.sort (· ≤ ·)).map natToDec)

/-- Modelled from the spec: type coercion of an environment variable
string back into a field value when `Settings()` is constructed. -/
def parseValue : SettingType → String → Option SettingValue
  | .tBool, s =>
    if s ∈ ["True", "true", "1"] then some (.vBool true)
    else if s ∈ ["False", "false", "0"] then some (.vBool false)
    else none
  | .tStr, s => some (.vStr s)
  | .tNat, s => (decToNat? s).map .vNat
  | .tIntSet, s => (parseRetryCodes s).toOption.map .vIntSet

/-- A value inhabits its declared field type. -/
def valueHasType : SettingValue → SettingType → Bool
  | .vBool _, .tBool => true
  | .vStr _, .tStr => true
  | .vNat _, .tNat => true
  | .vIntSet _, .tIntSet => true
  | _, _ => false

/-- Well-formedness of a stored value: a retry-code set holds only valid
HTTP status codes (its field-level validation accepted them). -/
def wfValue : SettingValue → Bool
  | .vIntSet codes => decide (∀ c ∈ codes, isValidHttpStatus c = true)
  | _ => true

/-- Modelled from the spec: "Environment variables prefixed `PREFECT_*`,
mapped to nested setting paths" — the environment variable name of a
dotted setting key. -/
def envName (k : String) : String :=
  "PREFECT_" ++ String.mk (k.data.map fun c => if c = '.' then '_' else c.toUpper)

/-- Modelled from the spec: a settings field: dotted key, declared type,
current value. -/
structure SettingField where
  key : String
  type : SettingType
  value : SettingValue
deriving DecidableEq

/-- Modelled from the spec: `to_environment_variables()` — one environment
variable per field, named by the key's environment variable name, holding
the rendered field value. -/
def toEnvironmentVariables (fields : List SettingField) :
    List (String × String) :=
  fields.map fun f => (envName f.key, renderValue f.value)

/-- Modelled from the spec: constructing `Settings()` with the environment
as the effective source (env has the highest precedence, so environment
values win): every field of the schema reads its environment variable and
coerces the string. -/
def settingsFromEnv (schema : List (String × SettingType))
    (env : List (String × String)) : Option (List SettingField) :=
  schema.mapM fun kt =>
    ((env.lookup (envName kt.1)).bind (parseValue kt.2)).map
      (SettingField.mk kt.1 kt.2)

/-- `model_dump()`: the mapping from setting keys to current values. -/
def modelDump (fields : List SettingField) : List (String × SettingValue) :=
  fields.map fun f => (f.key, f.value)

/-- The entries of one configuration source. -/
def entriesOf (s : Sources) : Source → List (String × String)
  | .env => s.env
  | .dotenv => s.dotenv
  | .profile => s.profile
  | .prefectToml => s.prefectToml
  | .pyprojectToml => s.pyprojectToml

/-- Modelled from the spec: "support for legacy/alias key names" — the
legacy alias of a canonical dotted setting key, for the aliases the test
suite exercises. -/
def legacyAliases : List (String × String) :=
  [("client.metrics.enabled", "PREFECT_CLIENT_ENABLE_METRICS"),
   ("server.logging_level", "PREFECT_LOGGING_SERVER_LEVEL"),
   ("results.default_storage_block", "PREFECT_DEFAULT_RESULT_STORAGE_BLOCK")]

/-- Modelled from the spec: lookup of a setting key among one source's
entries, accepting the canonical environment variable name or the legacy
alias name (pydantic validation aliases), canonical name first. -/
def aliasedLookup (entries : List (String × String)) (k : String) :
    Option String :=
  match entries.lookup (envName k) with
  | some v => some v
  | none => (legacyAliases.lookup k).bind fun a => entries.lookup a

/-- Resolution over the precedence chain where every source is consulted
through canonical-or-alias lookup. -/
def resolveFromAliased (order : List Source) (s : Sources)
    (d : String → String) (k : String) : String :=
  match order with
  | [] => d k
  | t :: rest =>
    match aliasedLookup (entriesOf s t) k with
    | some v => v
    | none => resolveFromAliased rest s d k

/-- Modelled from the spec: full resolution of a setting key with
legacy-alias support in every source. -/
def resolveSettingAliased (s : Sources) (d : String → String)
    (k : String) : String :=
  resolveFromAliased sourceOrder s d k

/-- Modelled from the spec: `to_environment_variables(include_aliases=...)`
— the canonical variables, plus, only when aliases are included, one
variable per field under its legacy alias name. -/
def toEnvironmentVariablesWithAliases (fields : List SettingField)
    (includeAliases : Bool) : List (String × String) :=
  toEnvironmentVariables fields ++
    (if includeAliases then
      fields.filterMap fun f =>
        (legacyAliases.lookup f.key).map fun a => (a, renderValue f.value)
    else [])

/-- Modelled from the spec: the settings fields relevant to "secret
masking": the API key is a `SecretStr` (plaintext held here), the API URL
a plain optional string. -/
structure SecretSettings where
  api_key : Option String
  api_url : Option String
deriving DecidableEq, Repr

/-- The fixed mask pydantic renders for a set `SecretStr`. -/
def secretMask : String := "**********"

/-- Modelled from the spec: `model_dump(mode="json")` — a set secret
field renders as the fixed mask regardless of its value; unset secrets
dump as null; other fields dump their values. -/
def modelDumpJson (s : SecretSettings) : List (String × Option String) :=
  [("api.key", s.api_key.map fun _ => secretMask), ("api.url", s.api_url)]

/-- Modelled from the spec: `model_dump` with
`context={"include_secrets": True}` reveals the plaintext secret; without
it the secret is masked as in JSON mode. -/
def modelDumpWithSecrets (includeSecrets : Bool) (s : SecretSettings) :
    List (String × Option String) :=
  [("api.key",
    if includeSecrets then s.api_key else s.api_key.map fun _ => secretMask),
   ("api.url", s.api_url)]

end Prefect.Settings

namespace Prefect.Responses

/-- A dumped (`model_dump`) field value; `None` dumps to `vNone`,
strings/UUIDs/datetimes/timedeltas to their scalar dumps, dictionaries and
lists to structured dumps. -/
inductive PyVal where
  | vNone
  | vStr (s : String)
  | vInt (i : Int)
  | vBool (b : Bool)
  | vDict (kvs : List (String × String))
  | vList (vs : List String)
deriving DecidableEq

/-- Dump of an optional string-like field (UUIDs are dumped as strings). -/
def dumpOptStr : Option String → PyVal
  | none => .vNone
  | some s => .vStr s

/-- Dump of an optional datetime field (modelled as an integer stamp). -/
def dumpOptInt : Option Int → PyVal
  | none => .vNone
  | some i => .vInt i

/-- Dump of an optional dictionary field. -/
def dumpOptDict : Option (List (String × String)) → PyVal
  | none => .vNone
  | some kvs => .vDict kvs

/-- The fields of `FlowRunResponse` (`responses.py`), in declaration
order: `id`/`created`/`updated` from `ObjectBaseModel`, then the declared
fields.  UUIDs are modelled as strings, datetimes and timedeltas as
integers, `dict[str, Any]` as string association lists, and the nested
`FlowRunPolicy`/`State`/`CreatedBy` models as their opaque dumps.
`objects.FlowRun` is missing from the excerpt; per the spec the response
schema mirrors the same server-side entity, so both classes dump this same
field set and are modelled by this record. -/
structure FlowRunFields where
  id : String
  created : Option Int
  updated : Option Int
  name : String
  flow_id : String
  state_id : Option String
  deployment_id : Option String
  deployment_version : Option String
  work_queue_name : Option String
  flow_version : Option String
  parameters : List (String × String)
  idempotency_key : Option String
  context : List (String × String)
  empirical_policy : String
  tags : List String
  labels : List (String × String)
  parent_task_run_id : Option String
  run_count : Int
  expected_start_time : Option Int
  next_scheduled_start_time : Option Int
  start_time : Option Int
  end_time : Option Int
  total_run_time : Int
  estimated_run_time : Int
  estimated_start_time_delta : Int
  auto_scheduled : Bool
  infrastructure_document_id : Option String
  infrastructure_pid : Option String
  created_by : Option String
  work_queue_id : Option String
  work_pool_id : Option String
  work_pool_name : Option String
  state : Option String
  job_variables : Option (List (String × String))
  state_type : Option String
  state_name : Option String
deriving DecidableEq

/-- `model_dump()` of a flow run: every field keyed by its name, in
declaration order. -/
def flowRunDump (fr : FlowRunFields) : List (String × PyVal) :=
  [("id", .vStr fr.id),
   ("created", dumpOptInt fr.created),
   ("updated", dumpOptInt fr.updated),
   ("name", .vStr fr.name),
   ("flow_id", .vStr fr.flow_id),
   ("state_id", dumpOptStr fr.state_id),
   ("deployment_id", dumpOptStr fr.deployment_id),
   ("deployment_version", dumpOptStr fr.deployment_version),
   ("work_queue_name", dumpOptStr fr.work_queue_name),
   ("flow_version", dumpOptStr fr.flow_version),
   ("parameters", .vDict fr.parameters),
   ("idempotency_key", dumpOptStr fr.idempotency_key),
   ("context", .vDict fr.context),
   ("empirical_policy", .vStr fr.empirical_policy),
   ("tags", .vList fr.tags),
   ("labels", .vDict fr.labels),
   ("parent_task_run_id", dumpOptStr fr.parent_task_run_id),
   ("run_count", .vInt fr.run_count),
   ("expected_start_time", dumpOptInt fr.expected_start_time),
   ("next_scheduled_start_time", dumpOptInt fr.next_scheduled_start_time),
   ("start_time", dumpOptInt fr.start_time),
   ("end_time", dumpOptInt fr.end_time),
   ("total_run_time", .vInt fr.total_run_time),
   ("estimated_run_time", .vInt fr.estimated_run_time),
   ("estimated_start_time_delta", .vInt fr.estimated_start_time_delta),
   ("auto_scheduled", .vBool fr.auto_scheduled),
   ("infrastructure_document_id", dumpOptStr fr.infrastructure_document_id),
   ("infrastructure_pid", dumpOptStr fr.infrastructure_pid),
   ("created_by", dumpOptStr fr.created_by),
   ("work_queue_id", dumpOptStr fr.work_queue_id),
   ("work_pool_id", dumpOptStr fr.work_pool_id),
   ("work_pool_name", dumpOptStr fr.work_pool_name),
   ("state", dumpOptStr fr.state),
   ("job_variables", dumpOptDict fr.job_variables),
   ("state_type", dumpOptStr fr.state_type),
   ("state_name", dumpOptStr fr.state_name)]

/-- `model_dump(exclude=...)`: the dump without the excluded fields. -/
def flowRunDumpExclude (fr : FlowRunFields) (excl : List String) :
    List (String × PyVal) :=
  (flowRunDump fr).filter fun p => !excl.contains p.1

/-- The volatile fields `FlowRunResponse.__eq__` ignores: "Estimates times
are rolling and will always change with repeated queries for a flow run so
we ignore them during equality checks." -/
def excludeFields : List String :=
  ["estimated_run_time", "estimated_start_time_delta"]

/-- `FlowRunResponse.__eq__` compared with an `objects.FlowRun`: equality
of the two model dumps with the volatile estimate fields excluded. -/
def flowRunResponseEq (self other : FlowRunFields) : Bool :=
  decide (flowRunDumpExclude self excludeFields
    = flowRunDumpExclude other excludeFields)

/-- `objects.VersionInfo` (missing from the excerpt): the type and version
of a deployment version description, as read by `as_related_resource`. -/
structure VersionInfo where
  type : String
  version : String
deriving DecidableEq

/-- The fields of `DeploymentResponse` (`responses.py`) that
`as_related_resource` reads: the object id, the name, the versioning
fields and the branching fields.  UUIDs are modelled as strings (their
`str()` rendering); the remaining declarative data fields of the class do
not influence the helper. -/
structure DeploymentResponse where
  id : String
  name : String
  version_id : Option String
  version_info : Option VersionInfo
  branch : Option String
  base : Option String
  root : Option String
deriving DecidableEq

/-- `prefect.events.schemas.events.RelatedResource` (missing from the
excerpt): a bundle of resource labels, keyed in insertion order. -/
structure RelatedResource where
  labels : List (String × String)
deriving DecidableEq

/-- Python truthiness of an optional string: `None` and the empty string
are falsy. -/
def pyTruthyOptStr : Option String → Bool
  | none => false
  | some s => !s.isEmpty

/-- `DeploymentResponse.as_related_resource`: the resource id, role and
name labels, then the branch label if the branch string is truthy, the
base and root labels if those ids are set (a set UUID is always truthy),
and the three version labels if both `version_id` and `version_info` are
set. -/
def asRelatedResource (d : DeploymentResponse)
    (role : String := "deployment") : RelatedResource :=
  { labels :=
      [("prefect.resource.id", "prefect.deployment." ++ d.id),
       ("prefect.resource.role", role),
       ("prefect.resource.name", d.name)]
      ++ (match d.branch with
          | some b => if b.isEmpty then [] else [("prefect.deployment.branch", b)]
          | none => [])
      ++ (match d.base with
          | some b => [("prefect.deployment.base", "prefect.deployment." ++ b)]
          | none => [])
      ++ (match d.root with
          | some r => [("prefect.deployment.root", "prefect.deployment." ++ r)]
          | none => [])
      ++ (match d.version_id, d.version_info with
          | some vid, some vi =>
            [("prefect.deployment.version-id", vid),
             ("prefect.deployment.version-type", vi.type),
             ("prefect.deployment.version", vi.version)]
          | _, _ => []) }

end Prefect.Responses

namespace Prefect.Settings

lemma lookupIn_removeKey_self (s : Sources) (t : Source) (k : String) :
    lookupIn (removeKey s t k) t k = none := by
  cases t <;>
    simp only [lookupIn, removeKey] <;>
    · rw [List.lookup_eq_none_iff]
      intro p hp
      have := List.of_mem_filter hp
      simp at this
      simp only [bne_iff_ne, ne_eq]
      exact fun h => this (Eq.symm h)

lemma lookupIn_removeKey_other (s : Sources) (t t' : Source) (k : String)
    (h : t ≠ t') : lookupIn (removeKey s t k) t' k = lookupIn s t' k := by
  cases t <;> cases t' <;> simp_all [lookupIn, removeKey]

lemma resolveFrom_removeKey (order : List Source) (s : Sources)
    (d : String → String) (t : Source) (k : String) :
    resolveFrom order (removeKey s t k) d k
      = resolveFrom (order.filter (fun t' => t' ≠ t)) s d k := by
  induction order with
  | nil => rfl
  | cons hd tl ih =>
    by_cases h : hd = t
    · subst h
      rw [List.filter_cons, if_neg (by simp)]
      simp only [resolveFrom, lookupIn_removeKey_self]
      exact ih
    · have hne : t ≠ hd := fun hh => h hh.symm
      rw [List.filter_cons, if_pos (by simp [h])]
      simp only [resolveFrom, lookupIn_removeKey_other s t hd k hne]
      cases lookupIn s hd k
      · exact ih
      · rfl

/-- C1: For every supported setting key, settings resolution follows the
precedence order env > dotenv > profile > prefect.toml > pyproject.toml >
default: when a higher-precedence source supplies a value for the key,
resolution returns that value regardless of values in lower-precedence
sources, and removing the higher source makes resolution fall through to
the next source in that order (the chain with the removed source skipped,
over the unchanged remaining sources). -/
theorem settings_precedence_order (s : Sources) (d : String → String)
    (k : String) :
    (∀ v, lookupIn s .env k = some v → resolveSetting s d k = v)
    ∧ (lookupIn s .env k = none →
        ∀ v, lookupIn s .dotenv k = some v → resolveSetting s d k = v)
    ∧ (lookupIn s .env k = none → lookupIn s .dotenv k = none →
        ∀ v, lookupIn s .profile k = some v → resolveSetting s d k = v)
    ∧ (lookupIn s .env k = none → lookupIn s .dotenv k = none →
        lookupIn s .profile k = none →
        ∀ v, lookupIn s .prefectToml k = some v → resolveSetting s d k = v)
    ∧ (lookupIn s .env k = none → lookupIn s .dotenv k = none →
        lookupIn s .profile k = none → lookupIn s .prefectToml k = none →
        ∀ v, lookupIn s .pyprojectToml k = some v → resolveSetting s d k = v)
    ∧ (lookupIn s .env k = none → lookupIn s .dotenv k = none →
        lookupIn s .profile k = none → lookupIn s .prefectToml k = none →
        lookupIn s .pyprojectToml k = none → resolveSetting s d k = d k)
    ∧ (∀ t, resolveSetting (removeKey s t k) d k
        = resolveFrom (sourceOrder.filter (fun t' => t' ≠ t)) s d k) := by
  refine ⟨?_, ?_, ?_, ?_, ?_, ?_, fun t => resolveFrom_removeKey _ s d t k⟩ <;>
    · intros
      simp_all [resolveSetting, sourceOrder, resolveFrom]

/-- Concrete instance of the precedence chain: with all five sources
supplying a value for the key, the environment wins; with env and dotenv
silent, the profile wins; and removing the env entry falls through to the
rest of the chain. -/
theorem settings_precedence_order_witness :
    resolveSetting
        ⟨[("client.retry_extra_codes", "429,500")], [],
          [("client.retry_extra_codes", "420,500")],
          [("client.retry_extra_codes", "300")],
          [("client.retry_extra_codes", "200")]⟩
        (fun _ => "") "client.retry_extra_codes" = "429,500"
    ∧ resolveSetting
        ⟨[], [], [("client.retry_extra_codes", "420,500")],
          [("client.retry_extra_codes", "300")],
          [("client.retry_extra_codes", "200")]⟩
        (fun _ => "") "client.retry_extra_codes" = "420,500"
    ∧ resolveSetting
        (removeKey
          ⟨[("client.retry_extra_codes", "429,500")], [],
            [("client.retry_extra_codes", "420,500")],
            [("client.retry_extra_codes", "300")],
            [("client.retry_extra_codes", "200")]⟩
          .env "client.retry_extra_codes")
        (fun _ => "") "client.retry_extra_codes" = "420,500" := by
  refine ⟨(settings_precedence_order _ _ _).1 _ rfl,
    (settings_precedence_order
      ⟨[], [], [("client.retry_extra_codes", "420,500")],
        [("client.retry_extra_codes", "300")],
        [("client.retry_extra_codes", "200")]⟩
      (fun _ => "") "client.retry_extra_codes").2.2.1 rfl rfl _ rfl, ?_⟩
  rw [(settings_precedence_order
    ⟨[("client.retry_extra_codes", "429,500")], [],
      [("client.retry_extra_codes", "420,500")],
      [("client.retry_extra_codes", "300")],
      [("client.retry_extra_codes", "200")]⟩
    (fun _ => "") "client.retry_extra_codes").2.2.2.2.2.2 .env]
  rfl

/-! ### Type coercion

Modelled from the spec: "type coercion (comma-separated lists, JSON
strings, durations)" and "retry codes must be valid HTTP status integers";
the coercion code itself (`prefect/settings/models/client.py` and
`prefect/types/__init__.py`) is missing from the excerpt.  Decimal
rendering/parsing models Python `str`/`int`, comma splitting models
Python `str.split(",")`, all at the character-list level. -/

lemma digitVal_digitChar {d : Nat} (h : d < 10) : digitVal (digitChar d) = d := by
  interval_cases d <;> decide

lemma isDigitChar_digitChar {d : Nat} (h : d < 10) :
    isDigitChar (digitChar d) = true := by
  interval_cases d <;> decide

lemma not_isSpaceChar_digitChar {d : Nat} (h : d < 10) :
    isSpaceChar (digitChar d) = false := by
  interval_cases d <;> decide

lemma digitChar_ne_comma {d : Nat} (h : d < 10) : digitChar d ≠ ',' := by
  interval_cases d <;> decide

lemma natToDec_data_digits (n : Nat) :
    ∀ c ∈ (natToDec n).data, ∃ d, d < 10 ∧ c = digitChar d := by
  intro c hc
  by_cases h : n = 0
  · subst h
    simp only [natToDec, if_pos rfl] at hc
    refine ⟨0, by norm_num, ?_⟩
    simpa [String.mk] using hc
  · simp only [natToDec, if_neg h, String.mk] at hc
    simp only [List.mem_map, List.mem_reverse] at hc
    obtain ⟨d, hd, rfl⟩ := hc
    exact ⟨d, Nat.digits_lt_base (by norm_num) hd, rfl⟩

lemma natToDec_data_ne_nil (n : Nat) : (natToDec n).data ≠ [] := by
  by_cases h : n = 0
  · subst h; simp [natToDec]
  · simp only [natToDec, if_neg h, String.mk]
    simp only [ne_eq, List.map_eq_nil_iff, List.reverse_eq_nil_iff]
    exact Nat.digits_ne_nil_iff_ne_zero.mpr h

lemma decToNat?_natToDec (n : Nat) : decToNat? (natToDec n) = some n := by
  by_cases h : n = 0
  · subst h; decide
  · have hdata : (natToDec n).data = (Nat.digits 10 n).reverse.map digitChar := by
      simp [natToDec, if_neg h, String.mk]
    rw [decToNat?, hdata]
    have hne : (Nat.digits 10 n).reverse.map digitChar ≠ [] := by
      simp only [ne_eq, List.map_eq_nil_iff, List.reverse_eq_nil_iff]
      exact Nat.digits_ne_nil_iff_ne_zero.mpr h
    have hall : ((Nat.digits 10 n).reverse.map digitChar).all isDigitChar = true := by
      rw [List.all_eq_true]
      intro c hc
      simp only [List.mem_map, List.mem_reverse] at hc
      obtain ⟨d, hd, rfl⟩ := hc
      exact isDigitChar_digitChar (Nat.digits_lt_base (by norm_num) hd)
    rw [if_pos]
    · congr 1
      rw [List.map_map]
      have h2 : (Nat.digits 10 n).reverse.map (digitVal ∘ digitChar)
          = (Nat.digits 10 n).reverse.map id := by
        apply List.map_congr_left
        intro d hd
        rw [List.mem_reverse] at hd
        exact digitVal_digitChar (Nat.digits_lt_base (by norm_num) hd)
      rw [h2, List.map_id, List.reverse_reverse, Nat.ofDigits_digits]
    · simp only [List.isEmpty_iff, Bool.and_eq_true, Bool.not_eq_true']
      refine ⟨by simpa using hne, hall⟩

lemma dropWhile_eq_self_of_all {p : Char → Bool} {l : List Char}
    (h : ∀ c ∈ l, p c = false) : l.dropWhile p = l := by
  cases l with
  | nil => rfl
  | cons c cs => rw [List.dropWhile_cons, if_neg (by simp [h c (by simp)])]

lemma pyStrip_of_no_space {s : String}
    (h : ∀ c ∈ s.data, isSpaceChar c = false) : pyStrip s = s := by
  rw [pyStrip, dropWhile_eq_self_of_all h, dropWhile_eq_self_of_all
    (fun c hc => h c (List.mem_reverse.mp hc)), List.reverse_reverse]

lemma pyStrip_natToDec (n : Nat) : pyStrip (natToDec n) = natToDec n := by
  apply pyStrip_of_no_space
  intro c hc
  obtain ⟨d, hd, rfl⟩ := natToDec_data_digits n c hc
  exact not_isSpaceChar_digitChar hd

lemma parseRetryCode_ok_of {t : String} {c : Nat}
    (h₁ : decToNat? (pyStrip t) = some c) (h₂ : isValidHttpStatus c = true) :
    parseRetryCode t = .ok c := by
  rw [parseRetryCode, h₁]
  simp only [h₂, if_true]

lemma mapM_parseRetryCode_ok {ts : List String} {cs : List Nat}
    (h : List.Forall₂ (fun t c => parseRetryCode t = .ok c) ts cs) :
    ts.mapM parseRetryCode = .ok cs := by
  induction h with
  | nil => rfl
  | cons h₁ _ ih =>
    simp only [List.mapM_cons, h₁, ih]
    rfl

lemma exceptIsOk_map (f : α → β) (e : Except String α) :
    exceptIsOk (e.map f) = exceptIsOk e := by
  cases e <;> rfl

lemma exceptIsOk_mapM_false {ts : List String} {t : String} (ht : t ∈ ts)
    (h : exceptIsOk (parseRetryCode t) = false) :
    exceptIsOk (ts.mapM parseRetryCode) = false := by
  induction ts with
  | nil => cases ht
  | cons hd tl ih =>
    rw [List.mapM_cons]
    cases hhd : parseRetryCode hd with
    | error e =>
      simp [hhd, exceptIsOk, Bind.bind, Except.bind]
    | ok c =>
      rcases List.mem_cons.mp ht with rfl | hmem
      · rw [hhd] at h
        simp [exceptIsOk] at h
      · cases htl : tl.mapM parseRetryCode with
        | error e =>
          simp [hhd, htl, exceptIsOk, Bind.bind, Except.bind]
        | ok cs =>
          have := ih hmem
          rw [htl] at this
          simp [exceptIsOk] at this

/-- C7: Comma-separated list coercion for PREFECT_CLIENT_RETRY_EXTRA_CODES
parses a string of comma-separated codes into a set of integers: whitespace
around tokens is ignored (each token is stripped before parsing), duplicate
codes collapse to a single element (the result is a set), and the empty
string yields the empty set. -/
theorem retry_extra_codes_comma_list (s : String) (ts : List String)
    (cs : List Nat) :
    (s ≠ "" → splitComma s = ts →
      List.Forall₂ (fun t c =>
        decToNat? (pyStrip t) = some c ∧ isValidHttpStatus c = true) ts cs →
      parseRetryCodes s = .ok cs.toFinset)
    ∧ parseRetryCodes "" = .ok ∅
    ∧ parseRetryCodes "400, 401, 402" = .ok {400, 401, 402}
    ∧ parseRetryCodes "400,400,400" = .ok {400} := by
  refine ⟨?_, rfl, rfl, rfl⟩
  intro hne hsplit hf
  rw [parseRetryCodes, if_neg hne, hsplit,
    mapM_parseRetryCode_ok (List.Forall₂.imp
      (fun t c h => parseRetryCode_ok_of h.1 h.2) hf)]
  rfl

/-- Concrete instance of the comma-list coercion: `"420, 500"` (with a
space after the comma) parses to the two-element set `{420, 500}`. -/
theorem retry_extra_codes_comma_list_witness :
    "420, 500" ≠ "" ∧ parseRetryCodes "420, 500" = .ok ({420, 500} : Finset Nat) := by
  refine ⟨by decide, ?_⟩
  have h := (retry_extra_codes_comma_list "420, 500" ["420", " 500"] [420, 500]).1
    (by decide) (by rfl)
    (List.Forall₂.cons ⟨by rfl, by rfl⟩
      (List.Forall₂.cons ⟨by rfl, by rfl⟩ List.Forall₂.nil))
  rw [h]
  rfl

/-- The claim that any log-level value outside the literal fixed set
raises is refuted at the concrete input "debug": the value is not in the
fixed set, yet validation succeeds (it is uppercased to "DEBUG" first, as
`test_settings_uppercases_log_levels` requires). -/
theorem log_level_lowercase_accepted :
    "debug" ∉ logLevels ∧ validateLogLevel "debug" = .ok "DEBUG" :=
  ⟨by decide, by rfl⟩

/-- C4 (amended): a setting value that fails its type/range check raises a
typed validation exception: a log-level setting given a value whose
uppercasing is outside the fixed set {'DEBUG','INFO','WARNING','ERROR',
'CRITICAL'} raises a pydantic ValidationError, and
PREFECT_CLIENT_RETRY_EXTRA_CODES given a token that is not a valid HTTP
status integer (such as 'foo', '-1', '0', or '10') raises a ValueError. -/
theorem setting_validation_typed_errors :
    (∀ s : String, pyUpper s ∉ logLevels →
      exceptIsOk (validateLogLevel s) = false)
    ∧ (∀ (s t : String), t ∈ splitComma s → s ≠ "" →
        exceptIsOk (parseRetryCode t) = false →
        exceptIsOk (parseRetryCodes s) = false)
    ∧ exceptIsOk (parseRetryCodes "foo") = false
    ∧ exceptIsOk (parseRetryCodes "-1") = false
    ∧ exceptIsOk (parseRetryCodes "0") = false
    ∧ exceptIsOk (parseRetryCodes "10") = false := by
  refine ⟨?_, ?_, rfl, rfl, rfl, rfl⟩
  · intro s h
    simp only [validateLogLevel]
    rw [if_neg h]
    rfl
  · intro s t ht hne h
    rw [parseRetryCodes, if_neg hne, exceptIsOk_map]
    exact exceptIsOk_mapM_false ht h

/-- Concrete instance of the validation errors: "FOOBAR" is rejected as a
log level, and the list "400,foo" is rejected because of the token "foo". -/
theorem setting_validation_typed_errors_witness :
    (pyUpper "FOOBAR" ∉ logLevels
      ∧ exceptIsOk (validateLogLevel "FOOBAR") = false)
    ∧ ("foo" ∈ splitComma "400,foo" ∧ "400,foo" ≠ ""
      ∧ exceptIsOk (parseRetryCode "foo") = false
      ∧ exceptIsOk (parseRetryCodes "400,foo") = false) :=
  ⟨⟨by decide, setting_validation_typed_errors.1 "FOOBAR" (by decide)⟩,
   ⟨by decide, by decide, by rfl,
    setting_validation_typed_errors.2.1 "400,foo" "foo" (by decide)
      (by decide) (by rfl)⟩⟩

/-- C3: If the profiles file at PREFECT_PROFILES_PATH exists but is not
parseable as TOML, constructing settings emits the user warning "Failed to
load profiles from ..." and returns settings populated from the remaining
sources and hardcoded defaults instead of raising an exception; a
nonexistent profiles path likewise falls back without a warning. -/
theorem malformed_profiles_warn_and_fall_back (s : Sources)
    (d : String → String) :
    ((settingsWithProfilesFile .malformed s d).2 = [failedLoadWarning]
      ∧ ∀ k, (settingsWithProfilesFile .malformed s d).1 k
          = resolveSetting { s with profile := [] } d k)
    ∧ ((settingsWithProfilesFile .missing s d).2 = []
      ∧ ∀ k, (settingsWithProfilesFile .missing s d).1 k
          = resolveSetting { s with profile := [] } d k)
    ∧ (s.env = [] → s.dotenv = [] → s.prefectToml = [] →
        s.pyprojectToml = [] →
        ∀ k, (settingsWithProfilesFile .malformed s d).1 k = d k) := by
  refine ⟨⟨rfl, fun k => rfl⟩, ⟨rfl, fun k => rfl⟩, ?_⟩
  intro h1 h2 h3 h4 k
  simp [settingsWithProfilesFile, loadProfiles, resolveSetting, sourceOrder,
    resolveFrom, lookupIn, h1, h2, h3, h4]

/-- Concrete instance of the profile fallback: with every other source
empty, a malformed profiles file warns and every key resolves to its
hardcoded default. -/
theorem malformed_profiles_warn_and_fall_back_witness :
    (settingsWithProfilesFile .malformed ⟨[], [], [], [], []⟩
        (fun _ => "FOO")).2 = [failedLoadWarning]
    ∧ (settingsWithProfilesFile .malformed ⟨[], [], [], [], []⟩
        (fun _ => "FOO")).1 "testing.test_setting" = "FOO" :=
  ⟨(malformed_profiles_warn_and_fall_back ⟨[], [], [], [], []⟩
      (fun _ => "FOO")).1.1,
   (malformed_profiles_warn_and_fall_back ⟨[], [], [], [], []⟩
      (fun _ => "FOO")).2.2 rfl rfl rfl rfl "testing.test_setting"⟩

/-- C5: temporary_settings substitutes the process-wide current settings
only for the duration of the context: the body observes the updated
settings as current; after the block exits — also when the body raises —
the previously current settings are observed again and os.environ is left
unchanged (the whole prior process state is restored unconditionally). -/
theorem temporary_settings_restores {S α : Type} (upd : S → S)
    (body : ProcState S → Outcome α) (st : ProcState S) :
    (temporarySettings upd body st).2 = st
    ∧ (temporarySettings upd body st).2.current = st.current
    ∧ (temporarySettings upd body st).2.environ = st.environ
    ∧ (temporarySettings upd body st).1
        = body { st with current := upd st.current }
    ∧ (∀ e, body { st with current := upd st.current } = .raised e →
        temporarySettings upd body st = (.raised e, st)) := by
  refine ⟨rfl, rfl, rfl, rfl, fun e h => ?_⟩
  simp [temporarySettings, h]

/-- Concrete instance of temporary_settings: test mode is temporarily set
to false, the body raises, and afterwards the old current settings and the
unchanged environment are observed. -/
theorem temporary_settings_restores_witness :
    temporarySettings (S := Bool) (α := Unit) (fun _ => false)
        (fun _ => .raised "ValueError")
        ⟨true, [("PREFECT_TESTING_TEST_MODE", "1")]⟩
      = (.raised "ValueError", ⟨true, [("PREFECT_TESTING_TEST_MODE", "1")]⟩) :=
  (temporary_settings_restores (fun _ => false)
      (fun _ => .raised "ValueError")
      ⟨true, [("PREFECT_TESTING_TEST_MODE", "1")]⟩).2.2.2.2 "ValueError" rfl

lemma parseRetryCode_natToDec {c : Nat} (h : isValidHttpStatus c = true) :
    parseRetryCode (natToDec c) = .ok c :=
  parseRetryCode_ok_of (by rw [pyStrip_natToDec, decToNat?_natToDec]) h

lemma parseRetryCodes_render (codes : Finset Nat)
    (h : ∀ c ∈ codes, isValidHttpStatus c = true) :
    parseRetryCodes (joinComma ((codes.sort (· ≤ ·)).map natToDec))
      = .ok codes := by
  by_cases hc : codes = ∅
  · subst hc
    rw [Finset.sort_empty]
    rfl
  · have hsort : (codes.sort (· ≤ ·)) ≠ [] := by
      obtain ⟨c, hcmem⟩ := Finset.nonempty_iff_ne_empty.mpr hc
      intro hnil
      have := (Finset.mem_sort (α := Nat) (· ≤ ·)).mpr hcmem
      rw [hnil] at this
      cases this
    have hdata : ∀ l ∈ ((codes.sort (· ≤ ·)).map natToDec).map String.data,
        ',' ∉ l := by
      intro l hl
      simp only [List.map_map, List.mem_map, Function.comp] at hl
      obtain ⟨c, _, rfl⟩ := hl
      intro hmem
      obtain ⟨d, hd, hdc⟩ := natToDec_data_digits c ',' hmem
      exact digitChar_ne_comma hd hdc.symm
    have hsplit : splitComma (joinComma ((codes.sort (· ≤ ·)).map natToDec))
        = (codes.sort (· ≤ ·)).map natToDec := by
      rw [splitComma, joinComma]
      show ((String.mk
        ([','].intercalate (((codes.sort (· ≤ ·)).map natToDec).map String.data))).data.splitOn
          ',').map String.mk = _
      rw [show ∀ l : List Char, (String.mk l).data = l from fun _ => rfl]
      rw [List.splitOn_intercalate _ ',' hdata (by simpa using hsort)]
      rw [List.map_map]
      have : (String.mk ∘ String.data) = id := by
        funext u
        rfl
      rw [this, List.map_id]
    have hne : joinComma ((codes.sort (· ≤ ·)).map natToDec) ≠ "" := by
      intro hval
      rw [hval] at hsplit
      have : splitComma "" = [""] := rfl
      rw [this] at hsplit
      have hmem : "" ∈ (codes.sort (· ≤ ·)).map natToDec := by
        rw [← hsplit]
        simp
      simp only [List.mem_map] at hmem
      obtain ⟨c, _, hcd⟩ := hmem
      exact natToDec_data_ne_nil c (by rw [hcd])
    rw [parseRetryCodes, if_neg hne, hsplit]
    have hmapM : ((codes.sort (· ≤ ·)).map natToDec).mapM parseRetryCode
        = .ok (codes.sort (· ≤ ·)) := by
      apply mapM_parseRetryCode_ok
      rw [List.forall₂_map_left_iff]
      rw [List.forall₂_same]
      intro c hcmem
      exact parseRetryCode_natToDec
        (h c ((Finset.mem_sort (α := Nat) (· ≤ ·)).mp hcmem))
    rw [hmapM]
    show Except.ok (codes.sort (· ≤ ·)).toFinset = _
    rw [Finset.sort_toFinset]

lemma parseValue_renderValue {v : SettingValue} {t : SettingType}
    (ht : valueHasType v t = true) (hwf : wfValue v = true) :
    parseValue t (renderValue v) = some v := by
  cases v <;> cases t <;> simp only [valueHasType] at ht <;>
    try exact absurd ht (by decide)
  case vBool.tBool =>
    rename_i b
    cases b <;> rfl
  case vStr.tStr => rfl
  case vNat.tNat =>
    rename_i n
    simp [parseValue, renderValue, decToNat?_natToDec]
  case vIntSet.tIntSet =>
    rename_i codes
    simp only [parseValue, renderValue]
    rw [parseRetryCodes_render codes (of_decide_eq_true hwf)]
    rfl

lemma lookup_toEnvironmentVariables {fields : List SettingField}
    {f : SettingField} (hf : f ∈ fields)
    (hnd : (fields.map fun g => envName g.key).Nodup) :
    (toEnvironmentVariables fields).lookup (envName f.key)
      = some (renderValue f.value) := by
  induction fields with
  | nil => cases hf
  | cons hd tl ih =>
    rw [List.map_cons, List.nodup_cons] at hnd
    rcases List.mem_cons.mp hf with rfl | hmem
    · simp [toEnvironmentVariables, List.lookup]
    · have hne : (envName f.key == envName hd.key) = false := by
        apply beq_eq_false_iff_ne.mpr
        intro hcontra
        apply hnd.1
        rw [← hcontra]
        exact List.mem_map_of_mem _ hmem
      simp only [toEnvironmentVariables, List.map_cons, List.lookup, hne]
      exact ih hmem hnd.2

lemma settingsFromEnv_ok {fields : List SettingField}
    (env : List (String × String))
    (hl : ∀ f ∈ fields, env.lookup (envName f.key) = some (renderValue f.value))
    (hv : ∀ f ∈ fields, valueHasType f.value f.type = true
      ∧ wfValue f.value = true) :
    settingsFromEnv (fields.map fun f => (f.key, f.type)) env = some fields := by
  induction fields with
  | nil => rfl
  | cons hd tl ih =>
    have htl := ih (fun f hf => hl f (List.mem_cons_of_mem hd hf))
      (fun f hf => hv f (List.mem_cons_of_mem hd hf))
    simp only [settingsFromEnv, List.map_cons, List.mapM_cons] at htl ⊢
    rw [hl hd (List.mem_cons_self hd tl)]
    simp only [Option.some_bind]
    rw [parseValue_renderValue (hv hd (List.mem_cons_self hd tl)).1
      (hv hd (List.mem_cons_self hd tl)).2]
    simp only [Option.map_some']
    rw [htl]
    rfl

/-- C2: Round-trip serialization preserves field values: for a settings
object (with distinct environment variable names and well-typed,
validation-accepted values), exporting it with to_environment_variables,
setting every exported variable in the environment, and constructing new
settings from that environment yields the same fields — in particular an
object whose model_dump equals the original's model_dump. -/
theorem settings_to_environment_roundtrip (fields : List SettingField)
    (hv : ∀ f ∈ fields, valueHasType f.value f.type = true
      ∧ wfValue f.value = true)
    (hnd : (fields.map fun g => envName g.key).Nodup) :
    settingsFromEnv (fields.map fun f => (f.key, f.type))
        (toEnvironmentVariables fields) = some fields
    ∧ ∀ fields', settingsFromEnv (fields.map fun f => (f.key, f.type))
        (toEnvironmentVariables fields) = some fields' →
        modelDump fields' = modelDump fields := by
  have h := settingsFromEnv_ok (toEnvironmentVariables fields)
    (fun f hf => lookup_toEnvironmentVariables hf hnd) hv
  refine ⟨h, fun fields' h' => ?_⟩
  rw [h] at h'
  cases Option.some.inj h'
  rfl

/-- Concrete instance of the environment round trip, over a boolean, a
retry-code set, a string and a port field. -/
theorem settings_to_environment_roundtrip_witness :
    settingsFromEnv
        (([⟨"testing.test_mode", .tBool, .vBool true⟩,
           ⟨"client.retry_extra_codes", .tIntSet, .vIntSet {420, 500}⟩,
           ⟨"api.url", .tStr, .vStr "http://localhost:4200/api"⟩,
           ⟨"server.api.port", .tNat, .vNat 4200⟩] :
          List SettingField).map fun f => (f.key, f.type))
        (toEnvironmentVariables
          [⟨"testing.test_mode", .tBool, .vBool true⟩,
           ⟨"client.retry_extra_codes", .tIntSet, .vIntSet {420, 500}⟩,
           ⟨"api.url", .tStr, .vStr "http://localhost:4200/api"⟩,
           ⟨"server.api.port", .tNat, .vNat 4200⟩])
      = some
          [⟨"testing.test_mode", .tBool, .vBool true⟩,
           ⟨"client.retry_extra_codes", .tIntSet, .vIntSet {420, 500}⟩,
           ⟨"api.url", .tStr, .vStr "http://localhost:4200/api"⟩,
           ⟨"server.api.port", .tNat, .vNat 4200⟩] :=
  (settings_to_environment_roundtrip
    [⟨"testing.test_mode", .tBool, .vBool true⟩,
     ⟨"client.retry_extra_codes", .tIntSet, .vIntSet {420, 500}⟩,
     ⟨"api.url", .tStr, .vStr "http://localhost:4200/api"⟩,
     ⟨"server.api.port", .tNat, .vNat 4200⟩]
    (by decide) (by decide)).1

lemma lookup_toEnvironmentVariables_none {fields : List SettingField}
    {n : String} (h : ∀ f ∈ fields, envName f.key ≠ n) :
    (toEnvironmentVariables fields).lookup n = none := by
  induction fields with
  | nil => rfl
  | cons hd tl ih =>
    have hne : (n == envName hd.key) = false :=
      beq_eq_false_iff_ne.mpr fun hc =>
        h hd (List.mem_cons_self hd tl) hc.symm
    simp only [toEnvironmentVariables, List.map_cons, List.lookup, hne]
    exact ih fun f hf => h f (List.mem_cons_of_mem hd hf)

/-- C6: Legacy/alias key names are supported: a profile entry under the
legacy name PREFECT_CLIENT_ENABLE_METRICS = "True" makes the setting
client.metrics.enabled resolve (and coerce) to True whatever the lower
sources hold; to_environment_variables with include_aliases=true emits the
legacy alias names (e.g. PREFECT_LOGGING_SERVER_LEVEL), and with
include_aliases=false it omits them. -/
theorem legacy_alias_key_support :
    (∀ (pt ppt : List (String × String)) (d : String → String),
      parseValue .tBool
        (resolveSettingAliased
          ⟨[], [], [("PREFECT_CLIENT_ENABLE_METRICS", "True")], pt, ppt⟩ d
          "client.metrics.enabled")
        = some (.vBool true))
    ∧ (∀ f : SettingField, f.key = "server.logging_level" →
        (toEnvironmentVariablesWithAliases [f] true).lookup
          "PREFECT_LOGGING_SERVER_LEVEL" = some (renderValue f.value))
    ∧ (∀ fields : List SettingField,
        (∀ f ∈ fields, envName f.key ≠ "PREFECT_LOGGING_SERVER_LEVEL") →
        (toEnvironmentVariablesWithAliases fields false).lookup
          "PREFECT_LOGGING_SERVER_LEVEL" = none) := by
  refine ⟨fun pt ppt d => rfl, fun f hk => ?_, fun fields h => ?_⟩
  · obtain ⟨key, ty, val⟩ := f
    cases hk
    rfl
  · rw [toEnvironmentVariablesWithAliases, if_neg (by simp),
      List.append_nil]
    exact lookup_toEnvironmentVariables_none h

/-- Concrete instance of alias support: the legacy profile entry turns
metrics on; a server logging level field exports under its legacy alias
exactly when aliases are included. -/
theorem legacy_alias_key_support_witness :
    parseValue .tBool
        (resolveSettingAliased
          ⟨[], [], [("PREFECT_CLIENT_ENABLE_METRICS", "True")], [], []⟩
          (fun _ => "") "client.metrics.enabled")
      = some (.vBool true)
    ∧ (toEnvironmentVariablesWithAliases
        [⟨"server.logging_level", .tStr, .vStr "DEBUG"⟩] true).lookup
        "PREFECT_LOGGING_SERVER_LEVEL" = some "DEBUG"
    ∧ (toEnvironmentVariablesWithAliases
        [⟨"server.logging_level", .tStr, .vStr "DEBUG"⟩] false).lookup
        "PREFECT_LOGGING_SERVER_LEVEL" = none :=
  ⟨legacy_alias_key_support.1 [] [] (fun _ => ""),
   legacy_alias_key_support.2.1 ⟨"server.logging_level", .tStr, .vStr "DEBUG"⟩
     rfl,
   legacy_alias_key_support.2.2
     [⟨"server.logging_level", .tStr, .vStr "DEBUG"⟩] (by decide)⟩

/-- C8: Secret masking holds under JSON serialization: with an API key
set, model_dump(mode="json") renders the key as "**********" regardless
of the secret's actual value — two settings differing only in the secret
produce the same JSON dump — while model_dump with context
include_secrets=True yields the plaintext value. -/
theorem secret_masking_json :
    (∀ (s : SecretSettings) (v : String), s.api_key = some v →
      (modelDumpJson s).lookup "api.key" = some (some secretMask))
    ∧ (∀ s₁ s₂ : SecretSettings, s₁.api_url = s₂.api_url →
        ∀ v₁ v₂, s₁.api_key = some v₁ → s₂.api_key = some v₂ →
        modelDumpJson s₁ = modelDumpJson s₂)
    ∧ (∀ (s : SecretSettings) (v : String), s.api_key = some v →
      (modelDumpWithSecrets true s).lookup "api.key" = some (some v)) := by
  refine ⟨fun s v h => ?_, fun s₁ s₂ hu v₁ v₂ h₁ h₂ => ?_, fun s v h => ?_⟩
  · simp [modelDumpJson, h, List.lookup]
  · simp [modelDumpJson, h₁, h₂, hu]
  · simp [modelDumpWithSecrets, h, List.lookup]

/-- Concrete instance of secret masking: the keys "test" and "other" dump
to the same masked JSON, and include_secrets reveals "test". -/
theorem secret_masking_json_witness :
    (modelDumpJson ⟨some "test", some "u"⟩).lookup "api.key"
        = some (some secretMask)
    ∧ modelDumpJson ⟨some "test", some "u"⟩
        = modelDumpJson ⟨some "other", some "u"⟩
    ∧ (modelDumpWithSecrets true ⟨some "test", some "u"⟩).lookup "api.key"
        = some (some "test") :=
  ⟨secret_masking_json.1 ⟨some "test", some "u"⟩ "test" rfl,
   secret_masking_json.2.1 ⟨some "test", some "u"⟩ ⟨some "other", some "u"⟩
     rfl "test" "other" rfl rfl,
   secret_masking_json.2.2 ⟨some "test", some "u"⟩ "test" rfl⟩

end Prefect.Settings

namespace Prefect.Responses

lemma dumpOptStr_inj {a b : Option String} :
    dumpOptStr a = dumpOptStr b ↔ a = b := by
  cases a <;> cases b <;> simp [dumpOptStr]

lemma dumpOptInt_inj {a b : Option Int} :
    dumpOptInt a = dumpOptInt b ↔ a = b := by
  cases a <;> cases b <;> simp [dumpOptInt]

lemma dumpOptDict_inj {a b : Option (List (String × String))} :
    dumpOptDict a = dumpOptDict b ↔ a = b := by
  cases a <;> cases b <;> simp [dumpOptDict]

lemma flowRunDumpExclude_eq (fr : FlowRunFields) :
    flowRunDumpExclude fr excludeFields =
      [("id", .vStr fr.id),
       ("created", dumpOptInt fr.created),
       ("updated", dumpOptInt fr.updated),
       ("name", .vStr fr.name),
       ("flow_id", .vStr fr.flow_id),
       ("state_id", dumpOptStr fr.state_id),
       ("deployment_id", dumpOptStr fr.deployment_id),
       ("deployment_version", dumpOptStr fr.deployment_version),
       ("work_queue_name", dumpOptStr fr.work_queue_name),
       ("flow_version", dumpOptStr fr.flow_version),
       ("parameters", .vDict fr.parameters),
       ("idempotency_key", dumpOptStr fr.idempotency_key),
       ("context", .vDict fr.context),
       ("empirical_policy", .vStr fr.empirical_policy),
       ("tags", .vList fr.tags),
       ("labels", .vDict fr.labels),
       ("parent_task_run_id", dumpOptStr fr.parent_task_run_id),
       ("run_count", .vInt fr.run_count),
       ("expected_start_time", dumpOptInt fr.expected_start_time),
       ("next_scheduled_start_time", dumpOptInt fr.next_scheduled_start_time),
       ("start_time", dumpOptInt fr.start_time),
       ("end_time", dumpOptInt fr.end_time),
       ("total_run_time", .vInt fr.total_run_time),
       ("auto_scheduled", .vBool fr.auto_scheduled),
       ("infrastructure_document_id", dumpOptStr fr.infrastructure_document_id),
       ("infrastructure_pid", dumpOptStr fr.infrastructure_pid),
       ("created_by", dumpOptStr fr.created_by),
       ("work_queue_id", dumpOptStr fr.work_queue_id),
       ("work_pool_id", dumpOptStr fr.work_pool_id),
       ("work_pool_name", dumpOptStr fr.work_pool_name),
       ("state", dumpOptStr fr.state),
       ("job_variables", dumpOptDict fr.job_variables),
       ("state_type", dumpOptStr fr.state_type),
       ("state_name", dumpOptStr fr.state_name)] := rfl

/-- C9: FlowRunResponse equality excludes volatile fields: compared with a
FlowRun object, __eq__ returns True exactly when their model dumps agree
on every field other than estimated_run_time and estimated_start_time_delta;
in particular two objects differing only in those two fields are equal. -/
theorem flowrun_response_eq_excludes_estimates (self other : FlowRunFields) :
    (flowRunResponseEq self other = true ↔
      (self.id = other.id ∧ self.created = other.created
        ∧ self.updated = other.updated ∧ self.name = other.name
        ∧ self.flow_id = other.flow_id ∧ self.state_id = other.state_id
        ∧ self.deployment_id = other.deployment_id
        ∧ self.deployment_version = other.deployment_version
        ∧ self.work_queue_name = other.work_queue_name
        ∧ self.flow_version = other.flow_version
        ∧ self.parameters = other.parameters
        ∧ self.idempotency_key = other.idempotency_key
        ∧ self.context = other.context
        ∧ self.empirical_policy = other.empirical_policy
        ∧ self.tags = other.tags ∧ self.labels = other.labels
        ∧ self.parent_task_run_id = other.parent_task_run_id
        ∧ self.run_count = other.run_count
        ∧ self.expected_start_time = other.expected_start_time
        ∧ self.next_scheduled_start_time = other.next_scheduled_start_time
        ∧ self.start_time = other.start_time
        ∧ self.end_time = other.end_time
        ∧ self.total_run_time = other.total_run_time
        ∧ self.auto_scheduled = other.auto_scheduled
        ∧ self.infrastructure_document_id = other.infrastructure_document_id
        ∧ self.infrastructure_pid = other.infrastructure_pid
        ∧ self.created_by = other.created_by
        ∧ self.work_queue_id = other.work_queue_id
        ∧ self.work_pool_id = other.work_pool_id
        ∧ self.work_pool_name = other.work_pool_name
        ∧ self.state = other.state
        ∧ self.job_variables = other.job_variables
        ∧ self.state_type = other.state_type
        ∧ self.state_name = other.state_name))
    ∧ (∀ ert esd, flowRunResponseEq self
        { self with estimated_run_time := ert,
                    estimated_start_time_delta := esd } = true) := by
  constructor
  · rw [flowRunResponseEq, decide_eq_true_iff, flowRunDumpExclude_eq,
      flowRunDumpExclude_eq]
    simp [dumpOptStr_inj, dumpOptInt_inj, dumpOptDict_inj]
  · intro ert esd
    rw [flowRunResponseEq, decide_eq_true_iff]
    rfl

/-- C10: as_related_resource(role) always labels the resource id as
"prefect.deployment." ++ id, the role as the given role (defaulting to
"deployment") and the name as the deployment's name; the version-id,
version-type and version labels are present exactly when both version_id
and version_info are set (with the version id, the version info type and
its version as values), and the branch/base/root labels exactly when the
corresponding field is truthy. -/
theorem deployment_as_related_resource (d : DeploymentResponse)
    (role : String) :
    (asRelatedResource d role).labels.lookup "prefect.resource.id"
        = some ("prefect.deployment." ++ d.id)
    ∧ (asRelatedResource d role).labels.lookup "prefect.resource.role"
        = some role
    ∧ (asRelatedResource d).labels.lookup "prefect.resource.role"
        = some "deployment"
    ∧ (asRelatedResource d role).labels.lookup "prefect.resource.name"
        = some d.name
    ∧ ((asRelatedResource d role).labels.lookup
        "prefect.deployment.version-id").isSome
        = (d.version_id.isSome && d.version_info.isSome)
    ∧ ((asRelatedResource d role).labels.lookup
        "prefect.deployment.version-type").isSome
        = (d.version_id.isSome && d.version_info.isSome)
    ∧ ((asRelatedResource d role).labels.lookup
        "prefect.deployment.version").isSome
        = (d.version_id.isSome && d.version_info.isSome)
    ∧ (∀ vid vi, d.version_id = some vid → d.version_info = some vi →
        (asRelatedResource d role).labels.lookup
            "prefect.deployment.version-id" = some vid
        ∧ (asRelatedResource d role).labels.lookup
            "prefect.deployment.version-type" = some vi.type
        ∧ (asRelatedResource d role).labels.lookup
            "prefect.deployment.version" = some vi.version)
    ∧ ((asRelatedResource d role).labels.lookup
        "prefect.deployment.branch").isSome = pyTruthyOptStr d.branch
    ∧ (∀ b, d.branch = some b → b.isEmpty = false →
        (asRelatedResource d role).labels.lookup "prefect.deployment.branch"
          = some b)
    ∧ ((asRelatedResource d role).labels.lookup
        "prefect.deployment.base").isSome = d.base.isSome
    ∧ (∀ b, d.base = some b →
        (asRelatedResource d role).labels.lookup "prefect.deployment.base"
          = some ("prefect.deployment." ++ b))
    ∧ ((asRelatedResource d role).labels.lookup
        "prefect.deployment.root").isSome = d.root.isSome
    ∧ (∀ r, d.root = some r →
        (asRelatedResource d role).labels.lookup "prefect.deployment.root"
          = some ("prefect.deployment." ++ r)) := by
  obtain ⟨i, n, vid, vi, br, ba, ro⟩ := d
  cases br with
  | none =>
    cases ba <;> cases ro <;> cases vid <;> cases vi <;>
      (refine ⟨rfl, rfl, rfl, rfl, rfl, rfl, rfl, ?_, rfl, ?_, rfl, ?_,
          rfl, ?_⟩ <;>
        intros <;>
        first
          | (rename_i h1 h2
             cases h1 <;> cases h2 <;> exact ⟨rfl, rfl, rfl⟩
             done)
          | (rename_i h
             cases h <;> rfl
             done))
  | some b =>
    cases hb : b.isEmpty with
    | true =>
      cases ba <;> cases ro <;> cases vid <;> cases vi <;>
        (simp only [asRelatedResource, hb, if_true, pyTruthyOptStr,
            Bool.not_true]
         refine ⟨rfl, rfl, rfl, rfl, rfl, rfl, rfl, ?_, rfl, ?_, rfl, ?_,
            rfl, ?_⟩ <;>
          intros <;>
          first
            | (rename_i h1 h2
               cases h1 <;> cases h2 <;> exact ⟨rfl, rfl, rfl⟩
               done)
            | (rename_i h hbe
               cases h
               simp [hb] at hbe
               done)
            | (rename_i h
               cases h <;> rfl
               done))
    | false =>
      cases ba <;> cases ro <;> cases vid <;> cases vi <;>
        (simp only [asRelatedResource, hb, Bool.false_eq_true, if_false,
            pyTruthyOptStr, Bool.not_false]
         refine ⟨rfl, rfl, rfl, rfl, rfl, rfl, rfl, ?_, rfl, ?_, rfl, ?_,
            rfl, ?_⟩ <;>
          intros <;>
          first
            | (rename_i h1 h2
               cases h1 <;> cases h2 <;> exact ⟨rfl, rfl, rfl⟩
               done)
            | (rename_i h hbe
               cases h
               rfl
               done)
            | (rename_i h
               cases h <;> rfl
               done))

/-- Concrete instance: a deployment with branch, base, root and version
set carries every derived label with the expected values; the default role
is "deployment". -/
theorem deployment_as_related_resource_witness :
    (asRelatedResource
        ⟨"d1", "my-deploy", some "v7", some ⟨"git", "1.2.3"⟩,
          some "main", some "b2", some "r3"⟩ "flow-run").labels
      = [("prefect.resource.id", "prefect.deployment.d1"),
         ("prefect.resource.role", "flow-run"),
         ("prefect.resource.name", "my-deploy"),
         ("prefect.deployment.branch", "main"),
         ("prefect.deployment.base", "prefect.deployment.b2"),
         ("prefect.deployment.root", "prefect.deployment.r3"),
         ("prefect.deployment.version-id", "v7"),
         ("prefect.deployment.version-type", "git"),
         ("prefect.deployment.version", "1.2.3")]
    ∧ (asRelatedResource
        ⟨"d1", "my-deploy", some "v7", some ⟨"git", "1.2.3"⟩,
          some "main", some "b2", some "r3"⟩ "flow-run").labels.lookup
        "prefect.deployment.version-id" = some "v7"
    ∧ (asRelatedResource
        ⟨"d1", "my-deploy", none, none, none, none, none⟩).labels.lookup
        "prefect.resource.role" = some "deployment" := by
  refine ⟨rfl, ?_, ?_⟩
  · exact ((deployment_as_related_resource
      ⟨"d1", "my-deploy", some "v7", some ⟨"git", "1.2.3"⟩,
        some "main", some "b2", some "r3"⟩
      "flow-run").2.2.2.2.2.2.2.1 "v7" ⟨"git", "1.2.3"⟩ rfl rfl).1
  · exact (deployment_as_related_resource
      ⟨"d1", "my-deploy", none, none, none, none, none⟩ "deployment").2.2.1

end Prefect.Responses
